import Mathlib

/-!
Verification development for the PDF QR-code service (`src/main.py`).

The service stamps a QR code onto the first page of an uploaded PDF.
We embed the pure computational content of `main.py` in Lean:

* the adaptive QR sizing and placement arithmetic of `add_qr_to_pdf`
  (lines 122-139), over the reals, with the floating-point power
  operator `**` abstracted as an arbitrary real function `fpow`;
* the drawing operations issued on the reportlab canvas, as a list of
  `DrawOp` values in issue order;
* `validate_pdf` (lines 61-78), with the PyPDF2 parser abstracted as a
  function returning `Except`;
* the page-assembly and exception flow of `add_qr_to_pdf`
  (lines 95-158) and of the HTTP endpoint (lines 177-204), including
  the blanket `except Exception` handler that re-wraps every raised
  exception, `HTTPException` included, into a 500;
* the byte-buffer assembly of the endpoint (lines 181-188);
* the QR encoder configuration of `generate_qr_code_svg` (lines 25-59).
-/

namespace PdfQrApi

/-- Abstract real-valued counterpart of Python's float power `x ** y`
as used in `target_size = (page_width * page_height) ** 0.3 * 0.1`
(src/main.py line 125).  Every sizing theorem is proved for an
arbitrary such function, so it holds for any rounding behaviour. -/
def FPow : Type := ℝ → ℝ → ℝ

/-- Adaptive QR size of src/main.py lines 122-126:
`min_qr_size = 100`, `max_qr_size = min(page_width, page_height) * 0.2`,
`target_size = (page_width * page_height) ** 0.3 * 0.1`,
`qr_size = max(min_qr_size, min(target_size, max_qr_size))`. -/
def qr_size (fpow : FPow) (page_width page_height : ℝ) : ℝ :=
  let min_qr_size : ℝ := 100
  let max_qr_size : ℝ := min page_width page_height * 0.2
  let target_size : ℝ := fpow (page_width * page_height) 0.3 * 0.1
  max min_qr_size (min target_size max_qr_size)

/-- Spec-side sizing formula, written exactly as the specification
states it: `max(100, min(0.1 * (W * H) ** 0.3, 0.2 * min(W, H)))`. -/
def qr_size_spec (fpow : FPow) (W H : ℝ) : ℝ :=
  max 100 (min (0.1 * fpow (W * H) 0.3) (0.2 * min W H))

lemma qr_size_def (fpow : FPow) (W H : ℝ) :
    qr_size fpow W H =
      max 100 (min (fpow (W * H) 0.3 * 0.1) (min W H * 0.2)) := rfl

lemma qr_size_eq_spec (fpow : FPow) (W H : ℝ) :
    qr_size fpow W H = qr_size_spec fpow W H := by
  rw [qr_size_def, qr_size_spec, mul_comm (fpow (W * H) 0.3) 0.1,
    mul_comm (min W H) 0.2]

lemma qr_size_of_small (fpow : FPow) (W H : ℝ) (h : min W H < 500) :
    qr_size fpow W H = 100 := by
  rw [qr_size_def]
  have hc : min W H * 0.2 < 100 := by linarith
  exact max_eq_left (le_trans (min_le_right _ _) (le_of_lt hc))

/-- Drawing operations issued on the reportlab canvas, in the order
they appear in src/main.py lines 135-139. -/
inductive DrawOp : Type where
  | setFillColorRGB (r g b : ℝ)
  | rect (x y w h : ℝ) (fill stroke : Bool)
  | draw (x y : ℝ)

/-- Canvas operations of src/main.py lines 122-139: compute `qr_size`,
set `margin = 20` and `padding = 2`, anchor at
`x = page_width - qr_size - margin - padding`,
`y = page_height - qr_size - margin - padding`, set the fill colour to
white, draw the filled background rectangle at `(x - padding, y - padding)`
with side `qr_size + 2*padding`, then draw the QR drawing at `(x, y)`. -/
def overlay_ops (fpow : FPow) (page_width page_height : ℝ) : List DrawOp :=
  let s := qr_size fpow page_width page_height
  let margin : ℝ := 20
  let padding : ℝ := 2
  let x := page_width - s - margin - padding
  let y := page_height - s - margin - padding
  [ DrawOp.setFillColorRGB 1 1 1,
    DrawOp.rect (x - padding) (y - padding) (s + 2 * padding) (s + 2 * padding) true false,
    DrawOp.draw x y ]

/-- C1: for every page width `W > 0` and height `H > 0`, the computed
QR size equals `max(100, min(0.1 * (W * H) ** 0.3, 0.2 * min(W, H)))`
— the target clamped between the floor 100 and the ceiling
`0.2 * min(W, H)`, with the floor winning when floor and ceiling
conflict (the `max` is applied outermost). -/
theorem qr_size_matches_spec (fpow : FPow) (W H : ℝ)
    (hW : 0 < W) (hH : 0 < H) :
    qr_size fpow W H =
      max 100 (min (0.1 * fpow (W * H) 0.3) (0.2 * min W H)) :=
  qr_size_eq_spec fpow W H

theorem qr_size_matches_spec_witness :
    qr_size (fun _ _ => 1) 612 792 =
      max 100 (min (0.1 * (fun (_ _ : ℝ) => (1 : ℝ)) (612 * 792) 0.3)
        (0.2 * min 612 792)) :=
  qr_size_matches_spec (fun _ _ => 1) 612 792 (by norm_num) (by norm_num)

/-- C2: for every page of width `W` and height `H`, with `margin = 20`
and `padding = 2`, the compositor sets a white fill, draws a filled
rectangle at `(x - padding, y - padding)` with side
`qr_size + 2*padding`, and only then draws the QR image at
`x = W - qr_size - margin - padding`, `y = H - qr_size - margin - padding`
(bottom-left origin, top-right anchor). -/
theorem qr_overlay_position (fpow : FPow) (W H : ℝ) :
    overlay_ops fpow W H =
      [ DrawOp.setFillColorRGB 1 1 1,
        DrawOp.rect (W - qr_size_spec fpow W H - 20 - 2 - 2)
          (H - qr_size_spec fpow W H - 20 - 2 - 2)
          (qr_size_spec fpow W H + 2 * 2) (qr_size_spec fpow W H + 2 * 2)
          true false,
        DrawOp.draw (W - qr_size_spec fpow W H - 20 - 2)
          (H - qr_size_spec fpow W H - 20 - 2) ] := by
  simp only [overlay_ops, qr_size_eq_spec]

/-- C7: for all page dimensions `(W, H)` with `min(W, H) >= 500`, the
computed `qr_size` satisfies `100 <= qr_size <= 0.2 * min(W, H)`. -/
theorem qr_size_bounds (fpow : FPow) (W H : ℝ) (h : 500 ≤ min W H) :
    100 ≤ qr_size fpow W H ∧ qr_size fpow W H ≤ 0.2 * min W H := by
  rw [qr_size_def]
  constructor
  · exact le_max_left _ _
  · have hfloor : (100 : ℝ) ≤ min W H * 0.2 := by linarith
    have hceil : min (fpow (W * H) 0.3 * 0.1) (min W H * 0.2) ≤ min W H * 0.2 :=
      min_le_right _ _
    rw [mul_comm (0.2 : ℝ) (min W H)]
    exact max_le hfloor hceil

theorem qr_size_bounds_witness :
    100 ≤ qr_size (fun _ _ => 0) 500 500 ∧
      qr_size (fun _ _ => 0) 500 500 ≤ 0.2 * min 500 500 :=
  qr_size_bounds (fun _ _ => 0) 500 500 (by norm_num)

/-- C8: for all page dimensions `(W, H)` with `min(W, H) < 500`, the
computed `qr_size` is exactly 100 (the floor wins), even though 100
then exceeds the nominal ceiling `0.2 * min(W, H)`. -/
theorem qr_size_floor_wins (fpow : FPow) (W H : ℝ) (h : min W H < 500) :
    qr_size fpow W H = 100 ∧ 0.2 * min W H < 100 := by
  refine ⟨qr_size_of_small fpow W H h, by linarith⟩

theorem qr_size_floor_wins_witness :
    qr_size (fun _ _ => 0) 200 200 = 100 ∧ 0.2 * min (200 : ℝ) 200 < 100 :=
  qr_size_floor_wins (fun _ _ => 0) 200 200 (by norm_num)

/-- C10: on any page whose width satisfies `0 < W < qr_size + 22`, the
computed x coordinate `W - qr_size - 20 - 2` is negative, and the
compositor still issues the background rectangle and the QR drawing at
exactly that position, with no clamping to the page bounds — the
overlay extends past the page's left edge. -/
theorem qr_overlay_offpage (fpow : FPow) (W H : ℝ)
    (hW : 0 < W) (hlt : W < qr_size fpow W H + 22) :
    W - qr_size fpow W H - 20 - 2 < 0 ∧
    overlay_ops fpow W H =
      [ DrawOp.setFillColorRGB 1 1 1,
        DrawOp.rect (W - qr_size fpow W H - 20 - 2 - 2)
          (H - qr_size fpow W H - 20 - 2 - 2)
          (qr_size fpow W H + 2 * 2) (qr_size fpow W H + 2 * 2)
          true false,
        DrawOp.draw (W - qr_size fpow W H - 20 - 2)
          (H - qr_size fpow W H - 20 - 2) ] := by
  constructor
  · linarith
  · simp only [overlay_ops]

theorem qr_overlay_offpage_witness :
    (100 : ℝ) - qr_size (fun _ _ => 0) 100 100 - 20 - 2 < 0 :=
  (qr_overlay_offpage (fun _ _ => 0) 100 100 (by norm_num)
    (by rw [qr_size_of_small (fun _ _ => 0) 100 100 (by norm_num)]; norm_num)).1

/-- Parsed document as exposed by PyPDF2's reader: an ordered list of
pages, where dereferencing an individual page may itself raise (an
`Except.error` entry).  The page type is abstract. -/
structure PdfDoc (Page : Type) where
  pages : List (Except String Page)

/-- Embedding of `validate_pdf` (src/main.py lines 61-78): parse the
bytes (any parser exception yields `False`), return `False` on a
zero-page document, access page 0 (an exception there also yields
`False`), otherwise return `True`.  The PyPDF2 parser is abstracted as
the function `parse`. -/
def validate_pdf {Page : Type} (parse : List ℕ → Except String (PdfDoc Page))
    (pdf_bytes : List ℕ) : Bool :=
  match parse pdf_bytes with
  | Except.error _ => false
  | Except.ok reader =>
    match reader.pages with
    | [] => false
    | (Except.error _) :: _ => false
    | (Except.ok _) :: _ => true

/-- Python exception values that reach the endpoint's handler: either
a `fastapi.HTTPException` (which subclasses `Exception`) or any other
exception carrying a message. -/
inductive PyExc : Type where
  | http (status_code : ℕ) (detail : String)
  | err (msg : String)

/-- Dereference every page of a reader's page list in order, as the
loop `for page in reader.pages[1:]` does; the first page whose
dereference raises aborts the loop with that exception. -/
def derefAll {Page : Type} : List (Except String Page) → Except String (List Page)
  | [] => Except.ok []
  | (Except.error e) :: _ => Except.error e
  | (Except.ok p) :: rest =>
    match derefAll rest with
    | Except.error e => Except.error e
    | Except.ok l => Except.ok (p :: l)

lemma derefAll_map_ok {Page : Type} (l : List Page) :
    derefAll (l.map Except.ok) = Except.ok l := by
  induction l with
  | nil => rfl
  | cons p rest ih => simp [derefAll, ih]

/-- Embedding of `add_qr_to_pdf` (src/main.py lines 95-158): reject
with `HTTPException(400)` when `validate_pdf` fails, re-parse the
bytes, reject with `HTTPException(400)` on an empty page list, merge
the QR overlay onto the first page (`merge_first`, abstracting
`first_page.merge_page(qr_pdf.pages[0])`), then write the merged first
page followed by every page of `reader.pages[1:]` unchanged.  Any
exception raised along the way propagates to the caller (the handler
at lines 155-158 logs and re-raises). -/
def add_qr_to_pdf {Page : Type} (parse : List ℕ → Except String (PdfDoc Page))
    (merge_first : Page → Page) (pdf_bytes : List ℕ) : Except PyExc (List Page) :=
  if validate_pdf parse pdf_bytes = false then
    Except.error (PyExc.http 400 ("Invalid or corrupted PDF file"))
  else
    match parse pdf_bytes with
    | Except.error e => Except.error (PyExc.err e)
    | Except.ok reader =>
      match reader.pages with
      | [] => Except.error (PyExc.http 400 ("PDF file is empty"))
      | first :: rest =>
        match first with
        | Except.error e => Except.error (PyExc.err e)
        | Except.ok first_page =>
          match derefAll rest with
          | Except.error e => Except.error (PyExc.err e)
          | Except.ok rest_pages => Except.ok (merge_first first_page :: rest_pages)

/-- Byte buffer assembled by the endpoint (src/main.py lines 181-188):
`first_chunk = await pdf_file.read(2048)`, then `await pdf_file.seek(0)`
followed by `pdf_bytes = first_chunk + await pdf_file.read()` — after
the seek, `read()` returns the whole file again, so the buffer is the
first 2048 bytes followed by the entire file. -/
def endpoint_pdf_bytes (file : List ℕ) : List ℕ :=
  file.take 2048 ++ file

/-- Embedding of `add_qr_to_pdf_endpoint` (src/main.py lines 177-204):
sniff the first 2048 bytes with libmagic (abstracted as
`magic_from_buffer`), raise `HTTPException(400)` on a mime mismatch,
otherwise run `add_qr_to_pdf` on the assembled buffer.  The whole body
sits in `try: ... except Exception as e: raise HTTPException(500, str(e))`;
since `HTTPException` subclasses `Exception`, every raised exception —
the endpoint's own 400s included — is re-wrapped into a 500 whose
detail is `str(e)` (abstracted as `exc_str`). -/
def add_qr_to_pdf_endpoint {Page : Type} (magic_from_buffer : List ℕ → String)
    (parse : List ℕ → Except String (PdfDoc Page)) (merge_first : Page → Page)
    (exc_str : PyExc → String) (file : List ℕ) : Except PyExc (List Page) :=
  let first_chunk := file.take 2048
  let body : Except PyExc (List Page) :=
    if magic_from_buffer first_chunk ≠ ("application/pdf") then
      Except.error (PyExc.http 400 ("Uploaded file is not a PDF"))
    else
      add_qr_to_pdf parse merge_first (endpoint_pdf_bytes file)
  match body with
  | Except.ok r => Except.ok r
  | Except.error e => Except.error (PyExc.http 500 (exc_str e))

/-- C5: `validate_pdf` is a total boolean function (it returns `Bool`,
never propagating an exception): it returns `false` whenever the parse
raises (empty buffers and non-PDF content make PyPDF2 raise), `false`
on a zero-page document, `false` when the first page cannot be
dereferenced, and `true` otherwise. -/
theorem validate_pdf_fail_closed {Page : Type}
    (parse : List ℕ → Except String (PdfDoc Page)) (b : List ℕ) :
    (∀ e, parse b = Except.error e → validate_pdf parse b = false) ∧
    (∀ d, parse b = Except.ok d → d.pages = [] →
      validate_pdf parse b = false) ∧
    (∀ d e rest, parse b = Except.ok d → d.pages = Except.error e :: rest →
      validate_pdf parse b = false) ∧
    (∀ d p rest, parse b = Except.ok d → d.pages = Except.ok p :: rest →
      validate_pdf parse b = true) := by
  refine ⟨?_, ?_, ?_, ?_⟩
  · intro e hp; simp [validate_pdf, hp]
  · intro d hp hpages; simp [validate_pdf, hp, hpages]
  · intro d e rest hp hpages; simp [validate_pdf, hp, hpages]
  · intro d p rest hp hpages; simp [validate_pdf, hp, hpages]

theorem validate_pdf_fail_closed_witness :
    validate_pdf (fun _ => Except.ok (PdfDoc.mk ([Except.ok (0 : ℕ)]))) [] = true ∧
    validate_pdf (fun _ => (Except.error ("bad") : Except String (PdfDoc ℕ))) [] = false :=
  ⟨(validate_pdf_fail_closed _ []).2.2.2 ⟨[Except.ok 0]⟩ 0 [] rfl rfl,
   (validate_pdf_fail_closed _ []).1 ("bad") rfl⟩

/-- C4: on a valid input document with a dereferenceable first page
and pass-through pages, `add_qr_to_pdf` succeeds, the output has
exactly the input's page count, and every output page at index `i ≥ 1`
is the corresponding input page unchanged; only page 0 is replaced by
its merged version. -/
theorem add_qr_to_pdf_frame {Page : Type}
    (parse : List ℕ → Except String (PdfDoc Page)) (merge_first : Page → Page)
    (b : List ℕ) (reader : PdfDoc Page) (first : Page) (rest_vals : List Page)
    (hp : parse b = Except.ok reader)
    (hpages : reader.pages = Except.ok first :: rest_vals.map Except.ok) :
    add_qr_to_pdf parse merge_first b =
      Except.ok (merge_first first :: rest_vals) ∧
    (merge_first first :: rest_vals).length = reader.pages.length ∧
    ∀ i, 1 ≤ i →
      reader.pages.get? i =
        Option.map Except.ok ((merge_first first :: rest_vals).get? i) := by
  have hval : validate_pdf parse b = true := by
    simp [validate_pdf, hp, hpages]
  refine ⟨?_, ?_, ?_⟩
  · simp [add_qr_to_pdf, hval, hp, hpages, derefAll_map_ok]
  · simp [hpages]
  · intro i hi
    obtain ⟨j, rfl⟩ : ∃ j, i = j + 1 := ⟨i - 1, by omega⟩
    simp [hpages, List.get?_map]

theorem add_qr_to_pdf_frame_witness :
    add_qr_to_pdf
        (fun _ => Except.ok (PdfDoc.mk [Except.ok 1, Except.ok 2, Except.ok 3]))
        (fun n => n + 10) [] =
      Except.ok [11, 2, 3] :=
  (add_qr_to_pdf_frame _ _ [] ⟨[Except.ok 1, Except.ok 2, Except.ok 3]⟩
    1 [2, 3] rfl rfl).1

/-- C3 evidence: when the mime sniff mismatches, or when the sniff
passes but the validator returns `false`, the endpoint's own
`HTTPException(400, ...)` is caught by its blanket
`except Exception` handler and the caller receives a **500** wrapping
the 400's message — not the 400 the claim describes. -/
theorem endpoint_wraps_user_errors_into_500 {Page : Type}
    (magic_from_buffer : List ℕ → String)
    (parse : List ℕ → Except String (PdfDoc Page)) (merge_first : Page → Page)
    (exc_str : PyExc → String) (file : List ℕ) :
    (magic_from_buffer (file.take 2048) ≠ ("application/pdf") →
      add_qr_to_pdf_endpoint magic_from_buffer parse merge_first exc_str file =
        Except.error (PyExc.http 500
          (exc_str (PyExc.http 400 ("Uploaded file is not a PDF"))))) ∧
    (magic_from_buffer (file.take 2048) = ("application/pdf") →
      validate_pdf parse (endpoint_pdf_bytes file) = false →
      add_qr_to_pdf_endpoint magic_from_buffer parse merge_first exc_str file =
        Except.error (PyExc.http 500
          (exc_str (PyExc.http 400 ("Invalid or corrupted PDF file"))))) := by
  constructor
  · intro h
    simp [add_qr_to_pdf_endpoint, h]
  · intro h hv
    simp [add_qr_to_pdf_endpoint, h, add_qr_to_pdf, hv]

theorem endpoint_wraps_user_errors_into_500_witness :
    add_qr_to_pdf_endpoint (fun _ => ("text/plain"))
        (fun _ => (Except.error ("nope") : Except String (PdfDoc ℕ)))
        id (fun _ => ("boom")) [] =
      Except.error (PyExc.http 500 ("boom")) :=
  (endpoint_wraps_user_errors_into_500 (fun _ => ("text/plain"))
    (fun _ => (Except.error ("nope") : Except String (PdfDoc ℕ)))
    id (fun _ => ("boom")) []).1 (by decide)

/-- C6 evidence: the byte buffer handed to the pipeline is
`first_chunk ++ file`, not `file` — after `seek(0)` the second `read()`
returns the whole file, so the sniffed head is prepended a second
time.  On the one-byte upload `[37]` (the byte `%`) the pipeline
receives `[37, 37]`. -/
theorem endpoint_duplicates_first_chunk :
    endpoint_pdf_bytes [37] = [37, 37] ∧ endpoint_pdf_bytes [37] ≠ [37] := by
  constructor <;> decide

/-- Error-correction levels of the qrcode library
(`qrcode.constants.ERROR_CORRECT_*`). -/
inductive ErrorCorrection : Type where
  | L
  | M
  | Q
  | H
deriving DecidableEq

/-- SVG image factories of `qrcode.image.svg`; the source selects
`SvgPathImage` (src/main.py line 48), the path-based factory. -/
inductive SvgFactory : Type where
  | SvgPathImage
  | SvgFragmentImage
  | SvgImage
deriving DecidableEq

/-- Result of `generate_qr_code_svg`: the QR symbol parameters baked
into the rendered SVG. -/
structure QrSvgImage : Type where
  version : ℕ
  error_correction : ErrorCorrection
  box_size : ℕ
  border : ℕ
  factory : SvgFactory
deriving DecidableEq

/-- Modelled from the spec: the qrcode library's `make(fit=True)`
version search (the library itself is not part of src/).  Starting
from the configured version, it picks the first symbol version whose
capacity at the configured error-correction level holds the payload,
and raises a data-overflow error past version 40.  `capacity v` is the
abstract payload capacity of version `v` at level L; the fuel argument
bounds the search, and `41` fuel from version `1` covers all versions. -/
def best_fit_from (capacity : ℕ → ℕ) (len : ℕ) : ℕ → ℕ → Except String ℕ
  | 0, _ =>
    Except.error ("Invalid version (was looking for a version that fits the data)")
  | fuel + 1, version =>
    if 40 < version then
      Except.error ("Invalid version (was looking for a version that fits the data)")
    else if len ≤ capacity version then
      Except.ok version
    else
      best_fit_from capacity len fuel (version + 1)

lemma best_fit_from_ok (capacity : ℕ → ℕ) (len : ℕ) :
    ∀ fuel start v, best_fit_from capacity len fuel start = Except.ok v →
      start ≤ v ∧ v ≤ 40 ∧ len ≤ capacity v ∧
      ∀ u, start ≤ u → u < v → capacity u < len := by
  intro fuel
  induction fuel with
  | zero =>
    intro start v h
    exact absurd h (by simp [best_fit_from])
  | succ fuel ih =>
    intro start v h
    by_cases h40 : 40 < start
    · simp [best_fit_from, h40] at h
    · by_cases hfit : len ≤ capacity start
      · simp [best_fit_from, h40, hfit] at h
        subst h
        exact ⟨le_refl _, by omega, hfit, fun u hu huv => by omega⟩
      · simp [best_fit_from, h40, hfit] at h
        obtain ⟨h1, h2, h3, h4⟩ := ih (start + 1) v h
        refine ⟨by omega, h2, h3, ?_⟩
        intro u hu huv
        rcases Nat.eq_or_lt_of_le hu with heq | hlt
        · subst heq; omega
        · exact h4 u (by omega) huv

lemma best_fit_from_overflow (capacity : ℕ → ℕ) (len : ℕ) :
    ∀ fuel start, (∀ v, start ≤ v → v ≤ 40 → capacity v < len) →
      ∃ e, best_fit_from capacity len fuel start = Except.error e := by
  intro fuel
  induction fuel with
  | zero =>
    intro start _
    exact ⟨_, rfl⟩
  | succ fuel ih =>
    intro start hall
    by_cases h40 : 40 < start
    · exact ⟨("Invalid version (was looking for a version that fits the data)"),
        by simp [best_fit_from, h40]⟩
    · have hlt : capacity start < len := hall start (le_refl _) (by omega)
      obtain ⟨e, he⟩ := ih (start + 1) (fun v hv h40v => hall v (by omega) h40v)
      exact ⟨e, by simp [best_fit_from, h40, Nat.not_le_of_lt hlt, he]⟩

/-- Embedding of `generate_qr_code_svg` (src/main.py lines 25-59): the
`QRCode` is configured with `version=1`, `error_correction=ERROR_CORRECT_L`,
`box_size=10`, `border=4`; `qr.make(fit=True)` searches for the
smallest fitting version from the configured start 1; the image is
rendered with the path-based `SvgPathImage` factory.  An encoding
failure (payload beyond every version's capacity at level L) is
re-raised to the caller (lines 56-59), never truncated. -/
def generate_qr_code_svg (capacity : ℕ → ℕ) (content : String) :
    Except String QrSvgImage :=
  match best_fit_from capacity content.length 41 1 with
  | Except.error e => Except.error e
  | Except.ok v =>
    Except.ok (QrSvgImage.mk v ErrorCorrection.L 10 4 SvgFactory.SvgPathImage)

/-- C9: every successfully encoded payload yields a QR symbol with
error-correction level L, quiet-zone border 4, fixed box size 10, a
path-based SVG rendering, and the smallest version (between 1 and 40)
whose capacity at level L holds the payload; a payload exceeding every
version's capacity at level L yields an encoding error, never a
truncated symbol. -/
theorem generate_qr_code_svg_spec (capacity : ℕ → ℕ) (content : String) :
    (∀ img, generate_qr_code_svg capacity content = Except.ok img →
      img.error_correction = ErrorCorrection.L ∧ img.border = 4 ∧
      img.box_size = 10 ∧ img.factory = SvgFactory.SvgPathImage ∧
      1 ≤ img.version ∧ img.version ≤ 40 ∧
      content.length ≤ capacity img.version ∧
      ∀ u, 1 ≤ u → u < img.version → capacity u < content.length) ∧
    ((∀ v, 1 ≤ v → v ≤ 40 → capacity v < content.length) →
      ∃ e, generate_qr_code_svg capacity content = Except.error e) := by
  constructor
  · intro img h
    rcases hb : best_fit_from capacity content.length 41 1 with e | v
    · rw [generate_qr_code_svg, hb] at h
      exact absurd h (by simp)
    · rw [generate_qr_code_svg, hb] at h
      have himg : img = QrSvgImage.mk v ErrorCorrection.L 10 4 SvgFactory.SvgPathImage := by
        simpa using h.symm
      obtain ⟨h1, h2, h3, h4⟩ := best_fit_from_ok capacity content.length 41 1 v hb
      subst himg
      exact ⟨rfl, rfl, rfl, rfl, h1, h2, h3, fun u hu huv => h4 u hu huv⟩
  · intro hall
    obtain ⟨e, he⟩ := best_fit_from_overflow capacity content.length 41 1 hall
    exact ⟨e, by rw [generate_qr_code_svg, he]⟩

theorem generate_qr_code_svg_spec_witness :
    (QrSvgImage.mk 1 ErrorCorrection.L 10 4 SvgFactory.SvgPathImage).error_correction
        = ErrorCorrection.L ∧
    (QrSvgImage.mk 1 ErrorCorrection.L 10 4 SvgFactory.SvgPathImage).border = 4 ∧
    (QrSvgImage.mk 1 ErrorCorrection.L 10 4 SvgFactory.SvgPathImage).box_size = 10 ∧
    ("hello").length ≤ (fun v => 17 * v) 1 := by
  have h := (generate_qr_code_svg_spec (fun v => 17 * v) ("hello")).1
    (QrSvgImage.mk 1 ErrorCorrection.L 10 4 SvgFactory.SvgPathImage) (by rfl)
  exact ⟨h.1, h.2.1, h.2.2.1, h.2.2.2.2.2.2.1⟩

end PdfQrApi
